import Mathlib

/-!
Shallow embedding of the Text2SQL agent pipeline (src/text2sql_agent.py,
src/app.py, src/config.py).

The external collaborators — the LLM completion port (one call site per
agent), the SQLite data store, the JSON decoder and the plotly renderers —
are modelled as explicit oracle parameters collected in `Ports`.  The LLM
outputs for the two call sites that can fire more than once in a run
(`sql_agent`, `error_agent`) are indexed by the `iteration` counter at call
time; `iteration` takes a distinct value at every such call inside one run,
so every sequence of port outputs an actual run could observe is
representable by some oracle.
-/

namespace Text2SQL

/-- Cell of a query result row, kept as its string rendering (`viz_agent`
applies `astype(str)` before any length measurement, so only the rendering
matters for the modelled logic). -/
abbrev Cell := String

/-- Row of a query result: one tuple returned by the data store. -/
abbrev Row := List Cell

/-- Result of `json.loads` on the chart-decision response, seen through the
two `.get` lookups the code performs (`needs_graph` with default `False`,
`graph_type` with default `"none"`).  The decoder returns `none` to model
any exception raised by `json.loads` or by `.get` on a non-dict value. -/
structure GraphDecision where
  needs_graph : Option Bool
  graph_type : Option String
  deriving Repr, DecidableEq

/-- AgentState of text2sql_agent.py.  `query_result` is held as the list of
rows returned by the data store: the Python code stores the string rendering
produced by `db.run` and parses it back with `ast.literal_eval` inside
`viz_agent`; we keep the round-tripped structured value. -/
structure AgentState where
  question : String
  sql_query : String
  query_result : List Row
  error : String
  iteration : Nat
  needs_graph : Bool
  graph_type : String
  graph_json : String
  final_answer : String
  is_in_scope : Bool
  deriving Repr, DecidableEq

/-- Plotting primitives `viz_agent` dispatches to (px.bar, px.line, px.pie,
px.scatter). -/
inductive RenderKind
  | bar
  | line
  | pie
  | scatter
  deriving Repr, DecidableEq

/-- Nodes of the compiled workflow graph, plus `done` for END. -/
inductive Node
  | guardrailAgent
  | sqlAgent
  | executeSql
  | errorAgent
  | parallelAnalysis
  | vizAgent
  | done
  deriving Repr, DecidableEq

/-- External collaborators of one pipeline run.  `guardOut`, `narrate` and
`decideOut` are the completion-port outputs of the call sites that fire at
most once per run; `sqlGen` and `errGen` give the outputs of the synthesis
and repair call sites as a function of the `iteration` counter at call time;
`dbRun` is the data store, indexed the same way; `jsonLoads` is the JSON
decoder used by `decide_graph_need`; `render` is the plotly port, taking the
dispatched kind, the x labels, the y values and the title, and returning
`none` to model a raised rendering exception. -/
structure Ports where
  guardOut : String
  sqlGen : Nat → String
  errGen : Nat → String
  dbRun : Nat → String → Except String (List Row)
  narrate : String
  decideOut : String
  jsonLoads : String → Option GraphDecision
  render : RenderKind → List String → List String → String → Option String

/-- MAX_RETRIES from config.py: `int(os.getenv("MAX_RETRIES", "3"))`.  The
environment override is the argument, the default is 3.  Note that
`should_retry` below does not consult this value. -/
def MAX_RETRIES (envOverride : Option Nat) : Nat := envOverride.getD 3

/-- Python `str.strip()`: drop whitespace from both ends.  Implemented on
the character list so that witnesses can evaluate it inside the kernel. -/
def pyStrip (s : String) : String :=
  String.mk (((s.data.dropWhile Char.isWhitespace).reverse.dropWhile
    Char.isWhitespace).reverse)

/-- Prefix test on character lists. -/
def charPrefix : List Char → List Char → Bool
  | [], _ => true
  | _ :: _, [] => false
  | a :: as, b :: bs => if a = b then charPrefix as bs else false

/-- Python `str.replace` on character lists, replacing non-overlapping
occurrences left to right.  The code only uses non-empty patterns; `fuel`
is the length of the subject and only makes the recursion structural. -/
def replaceAux (pat rep : List Char) : Nat → List Char → List Char
  | _, [] => []
  | 0, s => s
  | fuel + 1, c :: cs =>
    if charPrefix pat (c :: cs) then
      rep ++ replaceAux pat rep fuel ((c :: cs).drop pat.length)
    else c :: replaceAux pat rep fuel cs

/-- Python `str.replace` wrapped back at the string level. -/
def pyReplace (s pat rep : String) : String :=
  String.mk (replaceAux pat.data rep.data s.data.length s.data)

/-- Python `str.split(sep)` on character lists, for non-empty `sep`;
`cur` accumulates the current piece reversed, `fuel` is the length of the
subject and only makes the recursion structural. -/
def splitAux (sep : List Char) : Nat → List Char → List Char → List (List Char)
  | _, [], cur => [cur.reverse]
  | 0, s, cur => [cur.reverse ++ s]
  | fuel + 1, c :: cs, cur =>
    if charPrefix sep (c :: cs) then
      cur.reverse :: splitAux sep fuel ((c :: cs).drop sep.length) []
    else splitAux sep fuel cs (c :: cur)

/-- Python `str.split(sep)` wrapped back at the string level. -/
def pySplit (s sep : String) : List String :=
  (splitAux sep.data s.data.length s.data []).map String.mk

/-- Fixed answer set by guardrail_agent on a GREETING classification. -/
def greetingAnswer : String :=
  "Hello! I can help you analyze your e-commerce data. Ask me about orders, products, or customers."

/-- Fixed answer set by guardrail_agent on an OUT_OF_SCOPE classification. -/
def outOfScopeAnswer : String :=
  "I can only answer questions about the e-commerce database. Please ask about orders, sales, or products."

/-- guardrail_agent (text2sql_agent.py lines 57-85): strips the completion
output, compares it against the two terminal literals, and otherwise marks
the question in scope. -/
def guardrail_agent (guardOut : String) (s : AgentState) : AgentState :=
  let result := pyStrip guardOut
  if result = "GREETING" then
    { s with is_in_scope := false, final_answer := greetingAnswer }
  else if result = "OUT_OF_SCOPE" then
    { s with is_in_scope := false, final_answer := outOfScopeAnswer }
  else
    { s with is_in_scope := true }

/-- Query cleanup shared by sql_agent and error_agent:
`chain.invoke(...).strip()` followed by
`query.replace("```sql", "").replace("```", "").strip()`. -/
def cleanQueryOutput (raw : String) : String :=
  pyStrip (pyReplace (pyReplace (pyStrip raw) "```sql" "") "```" "")

/-- sql_agent (lines 87-120): synthesizes a query from the question and
increments `iteration`. -/
def sql_agent (sqlGen : Nat → String) (s : AgentState) : AgentState :=
  { s with sql_query := cleanQueryOutput (sqlGen s.iteration),
           iteration := s.iteration + 1 }

/-- execute_sql (lines 122-133): runs the query; on success stores the rows
and clears `error`, on any exception stores the message and clears the
rows.  Total by construction: the try/except of the source is the match on
the data-store outcome. -/
def execute_sql (dbRun : Nat → String → Except String (List Row))
    (s : AgentState) : AgentState :=
  match dbRun s.iteration s.sql_query with
  | .ok rows => { s with query_result := rows, error := "" }
  | .error e => { s with error := e, query_result := [] }

/-- error_agent (lines 135-159): produces a corrected query from the failed
query and error, and increments `iteration`. -/
def error_agent (errGen : Nat → String) (s : AgentState) : AgentState :=
  { s with sql_query := cleanQueryOutput (errGen s.iteration),
           iteration := s.iteration + 1 }

/-- analysis_agent (lines 161-181): sets `final_answer` to the narration
port's output. -/
def analysis_agent (narrateOut : String) (s : AgentState) : AgentState :=
  { s with final_answer := narrateOut }

/-- Substring test written the way the Python code observes it
(`sep in s` guarding `s.split(sep)[1]`): the split has at least two
pieces exactly when the separator occurs. -/
def strContainsSub (s sep : String) : Bool := 1 < (pySplit s sep).length

/-- Code-fence cleaning in decide_graph_need (lines 220-224): if "```json"
occurs, take the piece after it up to the next fence; else if "```" occurs,
take the piece between the first two fences; both stripped. -/
def cleanChartResponse (response : String) : String :=
  if strContainsSub response "```json" then
    pyStrip ((pySplit ((pySplit response "```json").getD 1 "") "```").getD 0 "")
  else if strContainsSub response "```" then
    pyStrip ((pySplit ((pySplit response "```").getD 1 "") "```").getD 0 "")
  else response

/-- decide_graph_need (lines 183-231): strips the raw completion output,
removes code fences, decodes; on success reads the two fields with defaults
`False` and `"none"`; on any decode failure returns `(false, "none")`.
Total by construction — the except-branch of the source is the `none` case
of the decoder. -/
def decide_graph_need (jsonLoads : String → Option GraphDecision)
    (raw : String) : Bool × String :=
  match jsonLoads (cleanChartResponse (pyStrip raw)) with
  | some d => (d.needs_graph.getD false, d.graph_type.getD "none")
  | none => (false, "none")

/-- parallel_analysis_and_graph_decision (lines 235-257): runs
analysis_agent and decide_graph_need on the same state snapshot and merges
the two disjoint partial updates. -/
def parallel_analysis (narrateOut : String)
    (jsonLoads : String → Option GraphDecision) (decideRaw : String)
    (s : AgentState) : AgentState :=
  let a := analysis_agent narrateOut s
  let d := decide_graph_need jsonLoads decideRaw
  { a with needs_graph := d.1, graph_type := d.2 }

/-- Mean string length of a column exceeds 20:
`df[col].astype(str).str.len().mean() > 20`, i.e. sum of lengths exceeds
20 times the row count. -/
def meanLenOver20 (col : List String) : Bool :=
  20 * col.length < (col.map String.length).sum

/-- Ordinal labels `stem ++ "1"`, `stem ++ "2"`, ... used by viz_agent for
synthetic axis labels. -/
def ordinalLabels (stem : String) (n : Nat) : List String :=
  (List.range n).map (fun i => stem ++ toString (i + 1))

/-- Values of the `label` column under viz_agent's positional column
naming: 2 columns give `label, value` (label at index 0), 3 columns give
`id, label, value` (label at index 1). -/
def labelColumn (rows : List Row) : List String :=
  rows.map (fun r => r.getD (if (rows.headD []).length = 2 then 0 else 1) "")

/-- The x-axis labels viz_agent plots (lines 306-340): when a `label`
column exists (2 or 3 columns) and its mean string length exceeds 20, the
labels are replaced by `Customer 1..n`, otherwise the label column is
plotted as is.  The `elif` branch on the `id` column in the source is
unreachable: `id` is a column name only when there are exactly 3 columns,
and then `label` is one too, so the first branch already fires.  Any other
column count gets the generic `Item 1..n` labels unconditionally. -/
def vizXLabels (rows : List Row) : List String :=
  let numCols := (rows.headD []).length
  if numCols = 2 ∨ numCols = 3 then
    if meanLenOver20 (labelColumn rows) then
      ordinalLabels "Customer " rows.length
    else labelColumn rows
  else
    ordinalLabels "Item " rows.length

/-- The y values viz_agent plots: the `value` column when one exists by the
positional naming, otherwise the last column. -/
def vizYValues (rows : List Row) : List String :=
  let numCols := (rows.headD []).length
  let yIdx := if numCols = 1 then 0
    else if numCols = 2 then 1
    else if numCols = 3 then 2
    else numCols - 1
  rows.map (fun r => r.getD yIdx "")

/-- Dispatch on graph_type (lines 346-356): the four known kinds map to
their renderer, anything else defaults to the bar renderer. -/
def dispatchKind (graph_type : String) : RenderKind :=
  if graph_type = "bar" then RenderKind.bar
  else if graph_type = "line" then RenderKind.line
  else if graph_type = "pie" then RenderKind.pie
  else if graph_type = "scatter" then RenderKind.scatter
  else RenderKind.bar

/-- Figure title: the kind-specific caption followed by the first 50
characters of the question and "...". -/
def chartTitle (graph_type question : String) : String :=
  (if graph_type = "bar" then "Bar Chart: "
   else if graph_type = "line" then "Line Chart: "
   else if graph_type = "pie" then "Pie Chart: "
   else if graph_type = "scatter" then "Scatter Plot: "
   else "Chart: ") ++ question.take 50 ++ "..."

/-- All rows have the arity of the first row; `pd.DataFrame(result,
columns=...)` raises on ragged input, which the source catches into the
empty-artifact path. -/
def rowsWellFormed (rows : List Row) : Bool :=
  rows.all (fun r => r.length = (rows.headD []).length)

/-- viz_agent (lines 281-365): empty results, ragged results (a pandas
exception) and a raised renderer each yield an empty `graph_json`; a
successful render stores the serialized figure.  Total by construction:
the try/except of the source is the `none` case of the render port. -/
def viz_agent
    (render : RenderKind → List String → List String → String → Option String)
    (s : AgentState) : AgentState :=
  let rows := s.query_result
  if rows.isEmpty then { s with graph_json := "" }
  else if rowsWellFormed rows then
    match render (dispatchKind s.graph_type) (vizXLabels rows)
        (vizYValues rows) (chartTitle s.graph_type s.question) with
    | some fig => { s with graph_json := fig }
    | none => { s with graph_json := "" }
  else { s with graph_json := "" }

/-- check_scope (lines 369-372): in-scope goes to sql_agent, otherwise END. -/
def check_scope (s : AgentState) : Node :=
  if s.is_in_scope then Node.sqlAgent else Node.done

/-- should_retry (lines 374-377): a non-empty error with iteration below the
literal 3 goes to error_agent, everything else to parallel_analysis. -/
def should_retry (s : AgentState) : Node :=
  if s.error ≠ "" ∧ s.iteration < 3 then Node.errorAgent
  else Node.parallelAnalysis

/-- should_generate_graph (lines 379-382): needs_graph goes to viz_agent,
otherwise END. -/
def should_generate_graph (s : AgentState) : Node :=
  if s.needs_graph then Node.vizAgent else Node.done

/-- Unconditional edges of the compiled workflow (lines 405, 416, 428):
sql_agent → execute_sql, error_agent → sql_agent, viz_agent → END. -/
def staticEdge : Node → Option Node
  | .sqlAgent => some Node.executeSql
  | .errorAgent => some Node.sqlAgent
  | .vizAgent => some Node.done
  | _ => none

/-- Joined tail of the pipeline: the parallel narration/chart-decision node,
then viz_agent exactly when should_generate_graph selects it (lines
419-428).  Returns the final state and the nodes entered. -/
def finishStage (p : Ports) (s : AgentState) : AgentState × List Node :=
  let s1 := parallel_analysis p.narrate p.jsonLoads p.decideOut s
  if should_generate_graph s1 = Node.vizAgent then
    (viz_agent p.render s1, [Node.parallelAnalysis, Node.vizAgent])
  else (s1, [Node.parallelAnalysis])

/-- The synthesis/execution/repair cycle of the compiled workflow:
sql_agent → execute_sql → should_retry, with error_agent feeding back into
sql_agent along the `staticEdge` for error_agent (line 416).  The `fuel`
argument only makes the recursion structural; `runPipeline` passes enough
fuel that the zero case is unreachable, which `runPipeline_reaches_done`
below establishes against `should_retry`'s own bound. -/
def sqlExecLoop (p : Ports) : Nat → AgentState → AgentState × List Node
  | 0, s => (s, [])
  | fuel + 1, s =>
    let s1 := sql_agent p.sqlGen s
    let s2 := execute_sql p.dbRun s1
    if should_retry s2 = Node.errorAgent then
      let s3 := error_agent p.errGen s2
      let r := sqlExecLoop p fuel s3
      (r.1, Node.sqlAgent :: Node.executeSql :: Node.errorAgent :: r.2)
    else
      (s2, [Node.sqlAgent, Node.executeSql])

/-- Initial state built by on_message in app.py (lines 33-42): only the
question varies; there is no retry-ceiling or other override parameter.
The keys on_message does not set (`graph_type`, `final_answer`) start as
the empty string; both are written before they are read. -/
def initialState (q : String) : AgentState :=
  { question := q, sql_query := "", query_result := [], error := "",
    iteration := 0, needs_graph := false, graph_type := "",
    graph_json := "", final_answer := "", is_in_scope := true }

/-- One full run of the compiled graph `app_graph` on a question, following
the wiring of lines 394-428: guardrail_agent, then check_scope routes to
END or into the synthesis/execution/repair cycle, whose exit feeds the
joined narration/chart stage.  Returns the final state and the nodes
entered, in order. -/
def runPipeline (p : Ports) (q : String) : AgentState × List Node :=
  let g := guardrail_agent p.guardOut (initialState q)
  if check_scope g = Node.sqlAgent then
    let r := sqlExecLoop p 4 g
    let f := finishStage p r.1
    (f.1, Node.guardrailAgent :: (r.2 ++ f.2))
  else (g, [Node.guardrailAgent])

/-- Demonstration ports for a run in which every execution attempt fails
with a fixed non-empty message. -/
def alwaysFailPorts : Ports :=
  { guardOut := "IN_SCOPE",
    sqlGen := fun _ => "SELECT x FROM orders",
    errGen := fun _ => "SELECT y FROM orders",
    dbRun := fun _ _ => Except.error "no such column: x",
    narrate := "The query kept failing, so no rows are available.",
    decideOut := "no",
    jsonLoads := fun _ => none,
    render := fun _ _ _ _ => some "fig" }

/-- Demonstration ports whose store call always yields one non-empty row. -/
def demoExecPorts : Ports :=
  { guardOut := "IN_SCOPE",
    sqlGen := fun _ => "SELECT COUNT(id) FROM orders",
    errGen := fun _ => "SELECT COUNT(id) FROM orders",
    dbRun := fun _ _ => Except.ok [["7"]],
    narrate := "There are seven orders.",
    decideOut := "none needed",
    jsonLoads := fun _ => none,
    render := fun _ _ _ _ => none }

/-- Demonstration ports for a run whose first execution fails and whose
second execution (of the re-synthesized query) succeeds. -/
def demoPorts : Ports :=
  { guardOut := "IN_SCOPE",
    sqlGen := fun _ => "SELECT COUNT(order_id) FROM orders",
    errGen := fun _ => "SELECT COUNT(id) FROM orders",
    dbRun := fun i _ =>
      if i = 1 then Except.error "no such table: orders" else Except.ok [["5"]],
    narrate := "There are five orders.",
    decideOut := "no chart needed",
    jsonLoads := fun _ => none,
    render := fun _ _ _ _ => some "figure-json" }

/-- Modelled from the spec: the row-shape fallback heuristic that section
4.7 of the spec describes for chart-need decode failure (a multi-row
multi-column result gives a bar chart, anything else no chart); written for
comparison with decide_graph_need, whose decode-failure branch ignores the
rows. -/
def specChartFallback (rows : List Row) : Bool × String :=
  if 1 < rows.length ∧ 1 < (rows.headD []).length then (true, "bar")
  else (false, "none")

/-- Demonstration ports whose guardrail output is the GREETING literal. -/
def greetPorts : Ports :=
  { guardOut := "GREETING",
    sqlGen := fun _ => "",
    errGen := fun _ => "",
    dbRun := fun _ _ => Except.ok [],
    narrate := "",
    decideOut := "",
    jsonLoads := fun _ => none,
    render := fun _ _ _ _ => none }

/-- Demonstration ports for a run that renders a bar chart successfully. -/
def chartPorts : Ports :=
  { guardOut := "IN_SCOPE",
    sqlGen := fun _ => "SELECT customer_city, total FROM sales",
    errGen := fun _ => "",
    dbRun := fun _ _ => Except.ok [["sao paulo", "500"], ["rio", "480"]],
    narrate := "Sao Paulo leads, Rio follows.",
    decideOut := "chart decision",
    jsonLoads := fun _ =>
      some { needs_graph := some true, graph_type := some "bar" },
    render := fun _ _ _ _ => some "FIG" }

/-- Demonstration two-column result with ten long (24-character)
identifiers in the label column. -/
def demoLongRows : List Row :=
  [["cust00000000000000000001", "500"], ["cust00000000000000000002", "480"],
   ["cust00000000000000000003", "460"], ["cust00000000000000000004", "440"],
   ["cust00000000000000000005", "420"], ["cust00000000000000000006", "400"],
   ["cust00000000000000000007", "380"], ["cust00000000000000000008", "360"],
   ["cust00000000000000000009", "340"], ["cust00000000000000000010", "320"]]

/-- Demonstration state entering viz_agent with the long-label rows and a
bar decision. -/
def demoVizState : AgentState :=
  { question := "top 10 customers by spending", sql_query := "q",
    query_result := demoLongRows, error := "", iteration := 3,
    needs_graph := true, graph_type := "bar", graph_json := "",
    final_answer := "", is_in_scope := true }

/-- Modelled from the spec: the retry decision as section 4.5 of the spec
describes it, parameterised by the configured retry ceiling; written for
comparison with should_retry, which compares against the literal 3. -/
def specShouldRetry (ceiling : Nat) (s : AgentState) : Node :=
  if s.error ≠ "" ∧ s.iteration < ceiling then Node.errorAgent
  else Node.parallelAnalysis

/-- Demonstration post-execution state with a non-empty error at attempt
count 3. -/
def demoStuckState : AgentState :=
  { question := "total sales by state", sql_query := "SELECT state FROM t",
    query_result := [], error := "no such table: t", iteration := 3,
    needs_graph := false, graph_type := "", graph_json := "",
    final_answer := "", is_in_scope := true }

/-! Helper lemmas about single nodes, the shape of a complete run, and the claims. -/

theorem guardrail_iteration (o : String) (s : AgentState) :
    (guardrail_agent o s).iteration = s.iteration := by
  unfold guardrail_agent; dsimp only; split_ifs <;> rfl

theorem guardrail_sql_query (o : String) (s : AgentState) :
    (guardrail_agent o s).sql_query = s.sql_query := by
  unfold guardrail_agent; dsimp only; split_ifs <;> rfl

theorem guardrail_error (o : String) (s : AgentState) :
    (guardrail_agent o s).error = s.error := by
  unfold guardrail_agent; dsimp only; split_ifs <;> rfl

theorem guardrail_in_scope_iff (o : String) (s : AgentState) :
    (guardrail_agent o s).is_in_scope = true ↔
      pyStrip o ≠ "GREETING" ∧ pyStrip o ≠ "OUT_OF_SCOPE" := by
  unfold guardrail_agent; dsimp only; split_ifs with h1 h2 <;> simp_all

theorem guardrail_eq_greeting (o : String) (s : AgentState)
    (h : pyStrip o = "GREETING") :
    guardrail_agent o s =
      { s with is_in_scope := false, final_answer := greetingAnswer } := by
  unfold guardrail_agent; simp [h]

theorem guardrail_eq_oos (o : String) (s : AgentState)
    (h : pyStrip o = "OUT_OF_SCOPE") :
    guardrail_agent o s =
      { s with is_in_scope := false, final_answer := outOfScopeAnswer } := by
  unfold guardrail_agent
  have : pyStrip o ≠ "GREETING" := by simp [h]
  simp [h, this]

theorem sql_agent_iteration (g : Nat → String) (s : AgentState) :
    (sql_agent g s).iteration = s.iteration + 1 := rfl

theorem sql_agent_error (g : Nat → String) (s : AgentState) :
    (sql_agent g s).error = s.error := rfl

theorem sql_agent_sql_query (g : Nat → String) (s : AgentState) :
    (sql_agent g s).sql_query = cleanQueryOutput (g s.iteration) := rfl

theorem error_agent_iteration (g : Nat → String) (s : AgentState) :
    (error_agent g s).iteration = s.iteration + 1 := rfl

theorem error_agent_error (g : Nat → String) (s : AgentState) :
    (error_agent g s).error = s.error := rfl

theorem execute_sql_iteration (d : Nat → String → Except String (List Row))
    (s : AgentState) : (execute_sql d s).iteration = s.iteration := by
  unfold execute_sql; cases d s.iteration s.sql_query <;> rfl

theorem execute_sql_sql_query (d : Nat → String → Except String (List Row))
    (s : AgentState) : (execute_sql d s).sql_query = s.sql_query := by
  unfold execute_sql; cases d s.iteration s.sql_query <;> rfl

theorem execute_sql_of_ok (d : Nat → String → Except String (List Row))
    (s : AgentState) (rows : List Row)
    (h : d s.iteration s.sql_query = Except.ok rows) :
    execute_sql d s = { s with query_result := rows, error := "" } := by
  unfold execute_sql; rw [h]

theorem execute_sql_of_error (d : Nat → String → Except String (List Row))
    (s : AgentState) (e : String)
    (h : d s.iteration s.sql_query = Except.error e) :
    execute_sql d s = { s with error := e, query_result := [] } := by
  unfold execute_sql; rw [h]

theorem should_retry_iff (s : AgentState) :
    should_retry s = Node.errorAgent ↔ s.error ≠ "" ∧ s.iteration < 3 := by
  unfold should_retry; split_ifs with h <;> simp_all

theorem should_retry_cases (s : AgentState) :
    should_retry s = Node.errorAgent ∨ should_retry s = Node.parallelAnalysis := by
  unfold should_retry; split_ifs <;> simp

theorem check_scope_iff (s : AgentState) :
    check_scope s = Node.sqlAgent ↔ s.is_in_scope = true := by
  unfold check_scope; split_ifs with h <;> simp_all

theorem should_generate_graph_iff (s : AgentState) :
    should_generate_graph s = Node.vizAgent ↔ s.needs_graph = true := by
  unfold should_generate_graph; split_ifs with h <;> simp_all

theorem parallel_analysis_eq (n : String) (j : String → Option GraphDecision)
    (dRaw : String) (s : AgentState) :
    parallel_analysis n j dRaw s =
      { s with final_answer := n,
               needs_graph := (decide_graph_need j dRaw).1,
               graph_type := (decide_graph_need j dRaw).2 } := rfl

theorem viz_agent_error
    (r : RenderKind → List String → List String → String → Option String)
    (s : AgentState) : (viz_agent r s).error = s.error := by
  unfold viz_agent; dsimp only; split_ifs <;> try rfl
  cases r (dispatchKind s.graph_type) (vizXLabels s.query_result)
    (vizYValues s.query_result) (chartTitle s.graph_type s.question) <;> rfl

theorem viz_agent_final_answer
    (r : RenderKind → List String → List String → String → Option String)
    (s : AgentState) : (viz_agent r s).final_answer = s.final_answer := by
  unfold viz_agent; dsimp only; split_ifs <;> try rfl
  cases r (dispatchKind s.graph_type) (vizXLabels s.query_result)
    (vizYValues s.query_result) (chartTitle s.graph_type s.question) <;> rfl

theorem viz_agent_iteration
    (r : RenderKind → List String → List String → String → Option String)
    (s : AgentState) : (viz_agent r s).iteration = s.iteration := by
  unfold viz_agent; dsimp only; split_ifs <;> try rfl
  cases r (dispatchKind s.graph_type) (vizXLabels s.query_result)
    (vizYValues s.query_result) (chartTitle s.graph_type s.question) <;> rfl

theorem viz_agent_sql_query
    (r : RenderKind → List String → List String → String → Option String)
    (s : AgentState) : (viz_agent r s).sql_query = s.sql_query := by
  unfold viz_agent; dsimp only; split_ifs <;> try rfl
  cases r (dispatchKind s.graph_type) (vizXLabels s.query_result)
    (vizYValues s.query_result) (chartTitle s.graph_type s.question) <;> rfl

theorem viz_agent_needs_graph
    (r : RenderKind → List String → List String → String → Option String)
    (s : AgentState) : (viz_agent r s).needs_graph = s.needs_graph := by
  unfold viz_agent; dsimp only; split_ifs <;> try rfl
  cases r (dispatchKind s.graph_type) (vizXLabels s.query_result)
    (vizYValues s.query_result) (chartTitle s.graph_type s.question) <;> rfl

theorem viz_agent_graph_json_cases
    (r : RenderKind → List String → List String → String → Option String)
    (s : AgentState) :
    (viz_agent r s).graph_json = "" ∨
      r (dispatchKind s.graph_type) (vizXLabels s.query_result)
        (vizYValues s.query_result) (chartTitle s.graph_type s.question)
        = some (viz_agent r s).graph_json := by
  unfold viz_agent; dsimp only; split_ifs <;> try exact Or.inl rfl
  rename_i h1 h2
  cases h : r (dispatchKind s.graph_type) (vizXLabels s.query_result)
    (vizYValues s.query_result) (chartTitle s.graph_type s.question) with
  | none => exact Or.inl (by simp [h])
  | some fig => exact Or.inr (by simp [h])

theorem finishStage_error (p : Ports) (s : AgentState) :
    (finishStage p s).1.error = s.error := by
  unfold finishStage; dsimp only; split_ifs <;>
    simp [viz_agent_error, parallel_analysis_eq]

theorem finishStage_final_answer (p : Ports) (s : AgentState) :
    (finishStage p s).1.final_answer = p.narrate := by
  unfold finishStage; dsimp only; split_ifs <;>
    simp [viz_agent_final_answer, parallel_analysis_eq]

theorem finishStage_iteration (p : Ports) (s : AgentState) :
    (finishStage p s).1.iteration = s.iteration := by
  unfold finishStage; dsimp only; split_ifs <;>
    simp [viz_agent_iteration, parallel_analysis_eq]

theorem finishStage_sql_query (p : Ports) (s : AgentState) :
    (finishStage p s).1.sql_query = s.sql_query := by
  unfold finishStage; dsimp only; split_ifs <;>
    simp [viz_agent_sql_query, parallel_analysis_eq]

theorem finishStage_trace (p : Ports) (s : AgentState) :
    (finishStage p s).2 = [Node.parallelAnalysis, Node.vizAgent] ∨
      (finishStage p s).2 = [Node.parallelAnalysis] := by
  unfold finishStage; dsimp only; split_ifs <;> simp

theorem sqlExecLoop_no_retry (p : Ports) (fuel : Nat) (s : AgentState)
    (h : should_retry (execute_sql p.dbRun (sql_agent p.sqlGen s)) ≠
      Node.errorAgent) :
    sqlExecLoop p (fuel + 1) s =
      (execute_sql p.dbRun (sql_agent p.sqlGen s),
        [Node.sqlAgent, Node.executeSql]) := by
  simp only [sqlExecLoop]
  rw [if_neg h]

theorem sqlExecLoop_retry (p : Ports) (fuel : Nat) (s : AgentState)
    (h : should_retry (execute_sql p.dbRun (sql_agent p.sqlGen s)) =
      Node.errorAgent) :
    sqlExecLoop p (fuel + 1) s =
      ((sqlExecLoop p fuel
          (error_agent p.errGen (execute_sql p.dbRun (sql_agent p.sqlGen s)))).1,
        Node.sqlAgent :: Node.executeSql :: Node.errorAgent ::
          (sqlExecLoop p fuel
            (error_agent p.errGen
              (execute_sql p.dbRun (sql_agent p.sqlGen s)))).2) := by
  simp only [sqlExecLoop]
  rw [if_pos h]

/-- Shape of every complete run: the guardrail either short-circuits, or the
pipeline executes synthesis/execution once, with exactly one repair round
re-entering the synthesizer when the first execution fails (the second
retry decision at iteration 3 can never choose error_agent), followed by
the joined narration/chart stage. -/
theorem runPipeline_char (p : Ports) (q : String) :
    runPipeline p q =
      (if (guardrail_agent p.guardOut (initialState q)).is_in_scope = true then
        (if (execute_sql p.dbRun (sql_agent p.sqlGen
              (guardrail_agent p.guardOut (initialState q)))).error = "" then
          ((finishStage p (execute_sql p.dbRun (sql_agent p.sqlGen
              (guardrail_agent p.guardOut (initialState q))))).1,
            Node.guardrailAgent :: Node.sqlAgent :: Node.executeSql ::
              (finishStage p (execute_sql p.dbRun (sql_agent p.sqlGen
                (guardrail_agent p.guardOut (initialState q))))).2)
        else
          ((finishStage p (execute_sql p.dbRun (sql_agent p.sqlGen
              (error_agent p.errGen (execute_sql p.dbRun (sql_agent p.sqlGen
                (guardrail_agent p.guardOut (initialState q)))))))).1,
            Node.guardrailAgent :: Node.sqlAgent :: Node.executeSql ::
              Node.errorAgent :: Node.sqlAgent :: Node.executeSql ::
              (finishStage p (execute_sql p.dbRun (sql_agent p.sqlGen
                (error_agent p.errGen (execute_sql p.dbRun (sql_agent p.sqlGen
                  (guardrail_agent p.guardOut (initialState q)))))))).2))
      else (guardrail_agent p.guardOut (initialState q), [Node.guardrailAgent])) := by
  have hgi : (guardrail_agent p.guardOut (initialState q)).iteration = 0 := by
    rw [guardrail_iteration]; rfl
  unfold runPipeline
  dsimp only
  by_cases hs : (guardrail_agent p.guardOut (initialState q)).is_in_scope = true
  · have hcs : check_scope (guardrail_agent p.guardOut (initialState q)) = Node.sqlAgent :=
      (check_scope_iff _).mpr hs
    rw [hcs, if_pos rfl, if_pos hs]
    have hs2i : (execute_sql p.dbRun (sql_agent p.sqlGen
        (guardrail_agent p.guardOut (initialState q)))).iteration = 1 := by
      rw [execute_sql_iteration, sql_agent_iteration, hgi]
    by_cases he : (execute_sql p.dbRun (sql_agent p.sqlGen
        (guardrail_agent p.guardOut (initialState q)))).error = ""
    · have hnr : should_retry (execute_sql p.dbRun (sql_agent p.sqlGen
          (guardrail_agent p.guardOut (initialState q)))) ≠ Node.errorAgent :=
        fun h => ((should_retry_iff _).mp h).1 he
      rw [show (4 : Nat) = 3 + 1 from rfl, sqlExecLoop_no_retry p 3 _ hnr, if_pos he]
      simp
    · have hr : should_retry (execute_sql p.dbRun (sql_agent p.sqlGen
          (guardrail_agent p.guardOut (initialState q)))) = Node.errorAgent := by
        rw [should_retry_iff]; exact ⟨he, by rw [hs2i]; norm_num⟩
      rw [show (4 : Nat) = 3 + 1 from rfl, sqlExecLoop_retry p 3 _ hr, if_neg he]
      have hs5i : (execute_sql p.dbRun (sql_agent p.sqlGen (error_agent p.errGen
          (execute_sql p.dbRun (sql_agent p.sqlGen
            (guardrail_agent p.guardOut (initialState q))))))).iteration = 3 := by
        rw [execute_sql_iteration, sql_agent_iteration, error_agent_iteration, hs2i]
      have hnr2 : should_retry (execute_sql p.dbRun (sql_agent p.sqlGen (error_agent p.errGen
          (execute_sql p.dbRun (sql_agent p.sqlGen
            (guardrail_agent p.guardOut (initialState q))))))) ≠ Node.errorAgent := by
        intro h
        have h2 := ((should_retry_iff _).mp h).2
        rw [hs5i] at h2
        exact absurd h2 (by norm_num)
      rw [show (3 : Nat) = 2 + 1 from rfl, sqlExecLoop_no_retry p 2 _ hnr2]
      simp
  · have hcs : check_scope (guardrail_agent p.guardOut (initialState q)) ≠ Node.sqlAgent :=
      fun h => hs ((check_scope_iff _).mp h)
    rw [if_neg hcs, if_neg hs]

theorem guardrail_graph_json (o : String) (s : AgentState) :
    (guardrail_agent o s).graph_json = s.graph_json := by
  unfold guardrail_agent; dsimp only; split_ifs <;> rfl

theorem sql_agent_graph_json (g : Nat → String) (s : AgentState) :
    (sql_agent g s).graph_json = s.graph_json := rfl

theorem error_agent_graph_json (g : Nat → String) (s : AgentState) :
    (error_agent g s).graph_json = s.graph_json := rfl

theorem execute_sql_graph_json (d : Nat → String → Except String (List Row))
    (s : AgentState) : (execute_sql d s).graph_json = s.graph_json := by
  unfold execute_sql; cases d s.iteration s.sql_query <;> rfl

theorem finishStage_count_errorAgent (p : Ports) (s : AgentState) :
    (finishStage p s).2.count Node.errorAgent = 0 := by
  rcases finishStage_trace p s with h | h <;> rw [h] <;> decide

theorem finishStage_count_executeSql (p : Ports) (s : AgentState) :
    (finishStage p s).2.count Node.executeSql = 0 := by
  rcases finishStage_trace p s with h | h <;> rw [h] <;> decide

theorem finishStage_mem_parallel (p : Ports) (s : AgentState) :
    Node.parallelAnalysis ∈ (finishStage p s).2 := by
  rcases finishStage_trace p s with h | h <;> rw [h] <;> decide

theorem run_bounds (p : Ports) (q : String) :
    (runPipeline p q).1.iteration ≤ 3 ∧
    (runPipeline p q).2.count Node.errorAgent ≤ 1 ∧
    (runPipeline p q).2.count Node.executeSql ≤ 2 := by
  rw [runPipeline_char]
  split_ifs with h1 h2
  · refine ⟨?_, ?_, ?_⟩
    · rw [finishStage_iteration, execute_sql_iteration, sql_agent_iteration,
        guardrail_iteration]
      norm_num [initialState]
    · simp [List.count_cons, finishStage_count_errorAgent]
    · simp [List.count_cons, finishStage_count_executeSql]
  · refine ⟨?_, ?_, ?_⟩
    · rw [finishStage_iteration, execute_sql_iteration, sql_agent_iteration,
        error_agent_iteration, execute_sql_iteration, sql_agent_iteration,
        guardrail_iteration]
      norm_num [initialState]
    · simp [List.count_cons, finishStage_count_errorAgent]
    · simp [List.count_cons, finishStage_count_executeSql]
  · refine ⟨?_, ?_, ?_⟩
    · rw [guardrail_iteration]; norm_num [initialState]
    · simp [List.count_cons]
    · simp [List.count_cons]

/-- C1: after every execution attempt, the retry decision routes to the
Query Repairer exactly when the stored error is non-empty and the attempt
count is strictly below 3, and in every other case routes forward to the
joined narration/chart-decision stage, regardless of whether the execution
succeeded. -/
theorem C1_retry_transition (p : Ports) (s : AgentState) :
    (should_retry (execute_sql p.dbRun s) = Node.errorAgent ↔
      (execute_sql p.dbRun s).error ≠ "" ∧
        (execute_sql p.dbRun s).iteration < 3) ∧
    (should_retry (execute_sql p.dbRun s) = Node.errorAgent ∨
      should_retry (execute_sql p.dbRun s) = Node.parallelAnalysis) :=
  ⟨should_retry_iff _, should_retry_cases _⟩

/-- C10: the repairer and the synthesizer each increment the attempt
counter, so one repair round increments it twice; in every complete run
the repairer fires at most once, the executor at most twice, and the final
attempt counter is at most 3. -/
theorem C10_double_increment (p : Ports) (q : String) (s : AgentState) :
    (error_agent p.errGen s).iteration = s.iteration + 1 ∧
    (sql_agent p.sqlGen s).iteration = s.iteration + 1 ∧
    (runPipeline p q).2.count Node.errorAgent ≤ 1 ∧
    (runPipeline p q).2.count Node.executeSql ≤ 2 ∧
    (runPipeline p q).1.iteration ≤ 3 :=
  ⟨rfl, rfl, (run_bounds p q).2.1, (run_bounds p q).2.2, (run_bounds p q).1⟩

/-- C3: in every complete run the attempt counter stays at or below the
retry ceiling plus one, and in an in-scope run in which every execution
attempt fails (with a non-empty narration output) the pipeline still
reaches the joined narration stage carrying a non-empty error and a
non-empty final answer, with exactly one repair round and no further
looping. -/
theorem C3_bounded_retry (p : Ports) (q : String) :
    (runPipeline p q).1.iteration ≤ 3 + 1 ∧
    ((guardrail_agent p.guardOut (initialState q)).is_in_scope = true →
      (∀ i qq, ∃ e, p.dbRun i qq = Except.error e ∧ e ≠ "") →
      p.narrate ≠ "" →
      (runPipeline p q).1.error ≠ "" ∧
      (runPipeline p q).1.final_answer ≠ "" ∧
      (runPipeline p q).2.count Node.errorAgent = 1 ∧
      Node.parallelAnalysis ∈ (runPipeline p q).2) := by
  constructor
  · exact le_trans (run_bounds p q).1 (by norm_num)
  · intro hscope hfail hnar
    have hfailE : ∀ s : AgentState, (execute_sql p.dbRun s).error ≠ "" := by
      intro s
      obtain ⟨e, he, hne⟩ := hfail s.iteration s.sql_query
      rw [execute_sql_of_error p.dbRun s e he]
      simpa using hne
    rw [runPipeline_char, if_pos hscope, if_neg (hfailE _)]
    refine ⟨?_, ?_, ?_, ?_⟩
    · rw [finishStage_error]; exact hfailE _
    · rw [finishStage_final_answer]; exact hnar
    · simp [List.count_cons, finishStage_count_errorAgent]
    · simp [List.mem_cons, finishStage_mem_parallel]

/-- C3 witness: a concrete always-failing run ends with a non-empty error,
a non-empty answer, and exactly one repair round. -/
theorem C3_witness :
    (runPipeline alwaysFailPorts "list all products").1.error ≠ "" ∧
    (runPipeline alwaysFailPorts "list all products").1.final_answer ≠ "" ∧
    (runPipeline alwaysFailPorts "list all products").2.count
      Node.errorAgent = 1 :=
  ((C3_bounded_retry alwaysFailPorts "list all products").2 (by decide)
    (fun _ _ => ⟨"no such column: x", rfl, by decide⟩) (by decide))
    |>.2.2.1 |> fun h =>
      ⟨((C3_bounded_retry alwaysFailPorts "list all products").2 (by decide)
          (fun _ _ => ⟨"no such column: x", rfl, by decide⟩) (by decide)).1,
        ((C3_bounded_retry alwaysFailPorts "list all products").2 (by decide)
          (fun _ _ => ⟨"no such column: x", rfl, by decide⟩) (by decide)).2.1,
        h⟩

/-- C4: every execution attempt returns normally; on a successful store call
the rows are stored and the error cleared, on a failing call the message is
stored and the rows cleared, so non-empty rows imply an empty error and a
non-empty error implies empty rows. -/
theorem C4_execute_sql_contract (p : Ports) (s : AgentState) :
    ((execute_sql p.dbRun s).query_result ≠ [] →
      (execute_sql p.dbRun s).error = "") ∧
    ((execute_sql p.dbRun s).error ≠ "" →
      (execute_sql p.dbRun s).query_result = []) ∧
    (∀ rows, p.dbRun s.iteration s.sql_query = Except.ok rows →
      execute_sql p.dbRun s = { s with query_result := rows, error := "" }) ∧
    (∀ e, p.dbRun s.iteration s.sql_query = Except.error e →
      execute_sql p.dbRun s = { s with error := e, query_result := [] }) := by
  refine ⟨?_, ?_, fun rows h => execute_sql_of_ok p.dbRun s rows h,
    fun e h => execute_sql_of_error p.dbRun s e h⟩
  · intro hne
    cases h : p.dbRun s.iteration s.sql_query with
    | ok rows => rw [execute_sql_of_ok _ _ _ h]
    | error e => rw [execute_sql_of_error _ _ _ h] at hne; simp at hne
  · intro hne
    cases h : p.dbRun s.iteration s.sql_query with
    | ok rows => rw [execute_sql_of_ok _ _ _ h] at hne; simp at hne
    | error e => rw [execute_sql_of_error _ _ _ h]

/-- C4 witness: a concrete successful execution has non-empty rows and an
empty error. -/
theorem C4_witness :
    (execute_sql demoExecPorts.dbRun (initialState "count")).error = "" :=
  (C4_execute_sql_contract demoExecPorts (initialState "count")).1 (by decide)

/-- C2 counterexample: the compiled workflow sends error_agent to
sql_agent, not to execute_sql, and in a concrete run whose first execution
fails and whose second succeeds the repairer fires once but the attempt
counter finishes at 3, not 2. -/
theorem C2_counterexample :
    staticEdge Node.errorAgent = some Node.sqlAgent ∧
    Node.sqlAgent ≠ Node.executeSql ∧
    (runPipeline demoPorts "how many orders are there?").1.error = "" ∧
    (runPipeline demoPorts "how many orders are there?").2.count
      Node.errorAgent = 1 ∧
    (runPipeline demoPorts "how many orders are there?").1.iteration = 3 ∧
    (3 : Nat) ≠ 2 := by
  refine ⟨rfl, by decide, by decide, by decide, by decide, by decide⟩

/-- C2 amended: after the repairer produces a replacement query the
pipeline transitions back to the synthesizer, which regenerates the query
(overwriting the repaired one) before the executor runs again; in a run
whose first execution fails and whose second succeeds, the repairer fires
exactly once, the executed query is the re-synthesized one, and the
attempt counter equals 3 at completion. -/
theorem C2_amended (p : Ports) (q : String)
    (hscope : (guardrail_agent p.guardOut (initialState q)).is_in_scope = true)
    (hfail1 : (execute_sql p.dbRun (sql_agent p.sqlGen
      (guardrail_agent p.guardOut (initialState q)))).error ≠ "")
    (hok2 : (execute_sql p.dbRun (sql_agent p.sqlGen (error_agent p.errGen
      (execute_sql p.dbRun (sql_agent p.sqlGen
        (guardrail_agent p.guardOut (initialState q))))))).error = "") :
    staticEdge Node.errorAgent = some Node.sqlAgent ∧
    (runPipeline p q).2.count Node.errorAgent = 1 ∧
    (runPipeline p q).1.iteration = 3 ∧
    (runPipeline p q).1.sql_query = cleanQueryOutput (p.sqlGen 2) ∧
    (runPipeline p q).1.error = "" := by
  have hne : ¬ (execute_sql p.dbRun (sql_agent p.sqlGen
      (guardrail_agent p.guardOut (initialState q)))).error = "" := hfail1
  rw [runPipeline_char, if_pos hscope, if_neg hne]
  refine ⟨rfl, ?_, ?_, ?_, ?_⟩
  · simp [List.count_cons, finishStage_count_errorAgent]
  · rw [finishStage_iteration, execute_sql_iteration, sql_agent_iteration,
      error_agent_iteration, execute_sql_iteration, sql_agent_iteration,
      guardrail_iteration]
    rfl
  · rw [finishStage_sql_query, execute_sql_sql_query, sql_agent_sql_query,
      error_agent_iteration, execute_sql_iteration, sql_agent_iteration,
      guardrail_iteration]
    rfl
  · rw [finishStage_error]; exact hok2

/-- C2 witness: the amended statement holds on the concrete
fail-then-succeed run. -/
theorem C2_witness :
    (runPipeline demoPorts "how many orders do we have?").2.count
      Node.errorAgent = 1 ∧
    (runPipeline demoPorts "how many orders do we have?").1.sql_query =
      cleanQueryOutput (demoPorts.sqlGen 2) :=
  ⟨(C2_amended demoPorts "how many orders do we have?" (by decide) (by decide)
      (by decide)).2.1,
    (C2_amended demoPorts "how many orders do we have?" (by decide) (by decide)
      (by decide)).2.2.2.1⟩

/-- C5 counterexample: on a decode failure over a multi-row multi-column
result the classifier returns (false, "none"), while the claimed row-shape
heuristic would return (true, "bar"). -/
theorem C5_counterexample :
    ((fun _ => none : String → Option GraphDecision)
        (cleanChartResponse (pyStrip "this is not a decision")) = none) ∧
    decide_graph_need (fun _ => none) "this is not a decision" =
      (false, "none") ∧
    specChartFallback [["sao paulo", "500"], ["rio", "480"]] = (true, "bar") ∧
    ((false, "none") : Bool × String) ≠ (true, "bar") := by decide

/-- C5 amended: on any decode failure the classifier never raises and
deterministically returns (false, "none"), regardless of the shape of the
rows. -/
theorem C5_amended (j : String → Option GraphDecision) (raw : String)
    (h : j (cleanChartResponse (pyStrip raw)) = none) :
    decide_graph_need j raw = (false, "none") := by
  unfold decide_graph_need
  rw [h]

/-- C5 witness: a concrete failing decode yields the fixed fallback pair. -/
theorem C5_witness :
    decide_graph_need (fun _ => none) "malformed chart output" =
      (false, "none") :=
  C5_amended (fun _ => none) "malformed chart output" rfl

/-- C6 counterexample: the output " GREETING" differs from both literals
yet is not labelled in-scope, because the classifier strips whitespace
before comparing. -/
theorem C6_counterexample :
    ((" GREETING" : String) ≠ "GREETING") ∧
    ((" GREETING" : String) ≠ "OUT_OF_SCOPE") ∧
    (guardrail_agent " GREETING" (initialState "hi")).is_in_scope = false := by
  decide

/-- C6 amended: the classifier labels the question in-scope unless the
completion output, after stripping surrounding whitespace, is exactly
GREETING or OUT_OF_SCOPE; in those two cases the run ends at the guardrail
with one of the two fixed non-empty answers, an empty query text, and no
synthesis or execution node entered. -/
theorem C6_amended (p : Ports) (q : String) :
    ((pyStrip p.guardOut ≠ "GREETING" ∧ pyStrip p.guardOut ≠ "OUT_OF_SCOPE") →
      (guardrail_agent p.guardOut (initialState q)).is_in_scope = true) ∧
    ((pyStrip p.guardOut = "GREETING" ∨ pyStrip p.guardOut = "OUT_OF_SCOPE") →
      (runPipeline p q).1.sql_query = "" ∧
      (runPipeline p q).1.final_answer ≠ "" ∧
      ((runPipeline p q).1.final_answer = greetingAnswer ∨
        (runPipeline p q).1.final_answer = outOfScopeAnswer) ∧
      Node.sqlAgent ∉ (runPipeline p q).2 ∧
      Node.executeSql ∉ (runPipeline p q).2) := by
  constructor
  · exact fun h => (guardrail_in_scope_iff _ _).mpr h
  · intro h
    have hnotin :
        ¬ (guardrail_agent p.guardOut (initialState q)).is_in_scope = true := by
      intro hs
      rcases (guardrail_in_scope_iff _ _).mp hs with ⟨h1, h2⟩
      rcases h with h | h
      exacts [h1 h, h2 h]
    rw [runPipeline_char, if_neg hnotin]
    refine ⟨?_, ?_, ?_, ?_, ?_⟩
    · rw [guardrail_sql_query]; rfl
    · rcases h with h | h
      · rw [guardrail_eq_greeting _ _ h]
        show greetingAnswer ≠ ""
        decide
      · rw [guardrail_eq_oos _ _ h]
        show outOfScopeAnswer ≠ ""
        decide
    · rcases h with h | h
      · exact Or.inl (by rw [guardrail_eq_greeting _ _ h])
      · exact Or.inr (by rw [guardrail_eq_oos _ _ h])
    · show Node.sqlAgent ∉ [Node.guardrailAgent]
      decide
    · show Node.executeSql ∉ [Node.guardrailAgent]
      decide

/-- C6 witness: a non-terminal output is labelled in-scope, and a GREETING
run ends with an empty query and a non-empty fixed answer. -/
theorem C6_witness :
    (guardrail_agent demoExecPorts.guardOut
      (initialState "top products")).is_in_scope = true ∧
    (runPipeline greetPorts "hello").1.sql_query = "" ∧
    (runPipeline greetPorts "hello").1.final_answer ≠ "" :=
  ⟨(C6_amended demoExecPorts "top products").1 (by decide),
    ((C6_amended greetPorts "hello").2 (by decide)).1,
    ((C6_amended greetPorts "hello").2 (by decide)).2.1⟩

theorem viz_agent_render_none
    (r : RenderKind → List String → List String → String → Option String)
    (s : AgentState)
    (h : r (dispatchKind s.graph_type) (vizXLabels s.query_result)
      (vizYValues s.query_result) (chartTitle s.graph_type s.question)
      = none) :
    (viz_agent r s).graph_json = "" := by
  unfold viz_agent
  dsimp only
  split_ifs <;> try rfl
  rw [h]

theorem finishStage_graph (p : Ports) (s : AgentState)
    (h0 : s.graph_json = "") :
    (finishStage p s).1.graph_json ≠ "" →
      (finishStage p s).1.needs_graph = true ∧
      ∃ k xs ys t, p.render k xs ys t = some (finishStage p s).1.graph_json := by
  unfold finishStage
  dsimp only
  split_ifs with hng
  · intro hne
    constructor
    · rw [viz_agent_needs_graph]
      exact (should_generate_graph_iff _).mp hng
    · rcases viz_agent_graph_json_cases p.render
        (parallel_analysis p.narrate p.jsonLoads p.decideOut s) with hc | hc
      · exact absurd hc hne
      · exact ⟨_, _, _, _, hc⟩
  · intro hne
    exfalso
    apply hne
    rw [parallel_analysis_eq]
    exact h0

/-- C7: the chart renderer never propagates a failure (a raised render call
yields an empty artifact), an unknown chart kind is dispatched to the bar
renderer, the renderer node is selected exactly when chart need is set,
and in every complete run a non-empty chart artifact implies the chart was
needed and some render call succeeded with exactly that artifact. -/
theorem C7_chart_render_safety (p : Ports) (q : String) (s : AgentState) :
    (p.render (dispatchKind s.graph_type) (vizXLabels s.query_result)
        (vizYValues s.query_result) (chartTitle s.graph_type s.question)
        = none →
      (viz_agent p.render s).graph_json = "") ∧
    (∀ g : String, g ≠ "bar" → g ≠ "line" → g ≠ "pie" → g ≠ "scatter" →
      dispatchKind g = RenderKind.bar) ∧
    (should_generate_graph s = Node.vizAgent ↔ s.needs_graph = true) ∧
    ((runPipeline p q).1.graph_json ≠ "" →
      (runPipeline p q).1.needs_graph = true ∧
      ∃ k xs ys t, p.render k xs ys t =
        some (runPipeline p q).1.graph_json) := by
  refine ⟨viz_agent_render_none p.render s, ?_, should_generate_graph_iff s, ?_⟩
  · intro g h1 h2 h3 h4
    unfold dispatchKind
    rw [if_neg h1, if_neg h2, if_neg h3, if_neg h4]
  · rw [runPipeline_char]
    split_ifs with h1 h2
    · refine finishStage_graph p _ ?_
      rw [execute_sql_graph_json, sql_agent_graph_json, guardrail_graph_json]
      rfl
    · refine finishStage_graph p _ ?_
      rw [execute_sql_graph_json, sql_agent_graph_json, error_agent_graph_json,
        execute_sql_graph_json, sql_agent_graph_json, guardrail_graph_json]
      rfl
    · intro hne
      exfalso
      apply hne
      show (guardrail_agent p.guardOut (initialState q)).graph_json = ""
      rw [guardrail_graph_json]
      rfl

/-- C7 witness: a failing render call yields an empty artifact, an unknown
kind dispatches to bar, and a concrete successful chart run has a needed,
successfully rendered artifact. -/
theorem C7_witness :
    (viz_agent demoExecPorts.render (initialState "x")).graph_json = "" ∧
    dispatchKind "histogram" = RenderKind.bar ∧
    (runPipeline chartPorts "top cities by sales").1.needs_graph = true ∧
    ∃ k xs ys t, chartPorts.render k xs ys t =
      some (runPipeline chartPorts "top cities by sales").1.graph_json :=
  ⟨(C7_chart_render_safety demoExecPorts "x" (initialState "x")).1 (by decide),
    (C7_chart_render_safety demoExecPorts "x" (initialState "x")).2.1
      "histogram" (by decide) (by decide) (by decide) (by decide),
    ((C7_chart_render_safety chartPorts "top cities by sales"
        (initialState "z")).2.2.2 (by decide)).1,
    ((C7_chart_render_safety chartPorts "top cities by sales"
        (initialState "z")).2.2.2 (by decide)).2⟩

/-- C8 counterexample: a two-column top-10 result with long identifiers is
relabelled `Customer 1..Customer 10`, not `Item 1..Item 10`, and the label
the renderer actually receives is "Customer 1". -/
theorem C8_counterexample :
    meanLenOver20 (labelColumn demoLongRows) = true ∧
    vizXLabels demoLongRows = ordinalLabels "Customer " 10 ∧
    vizXLabels demoLongRows ≠ ordinalLabels "Item " 10 ∧
    (viz_agent (fun _ xs _ _ => some (xs.getD 0 "")) demoVizState).graph_json
      = "Customer 1" := by
  decide

/-- C8 amended: for every two- or three-column result whose label column
has mean string length over 20, the renderer replaces the plotted axis
labels by the synthetic ordinals `Customer 1`, `Customer 2`, ...; in
particular a two-column top-10 result with long identifiers is relabelled
`Customer 1` through `Customer 10`. -/
theorem C8_amended (rows : List Row)
    (h2 : (rows.headD []).length = 2 ∨ (rows.headD []).length = 3)
    (hlen : meanLenOver20 (labelColumn rows) = true) :
    vizXLabels rows = ordinalLabels "Customer " rows.length := by
  unfold vizXLabels
  dsimp only
  rw [if_pos h2, if_pos hlen]

/-- C8 witness: the amended relabelling on the concrete long-identifier
rows. -/
theorem C8_witness :
    vizXLabels demoLongRows = ordinalLabels "Customer " demoLongRows.length :=
  C8_amended demoLongRows (by decide) (by decide)

/-- C9 counterexample: with a configured ceiling of 5 (MAX_RETRIES
override), the spec-modelled decision would retry the failing state at
attempt count 3, but the code's decision moves forward, because it
compares against the literal 3 and never reads the configured value. -/
theorem C9_counterexample :
    MAX_RETRIES (some 5) = 5 ∧
    should_retry demoStuckState = Node.parallelAnalysis ∧
    specShouldRetry (MAX_RETRIES (some 5)) demoStuckState = Node.errorAgent ∧
    Node.parallelAnalysis ≠ Node.errorAgent := by
  decide

/-- C9 amended: the retry decision coincides with the spec-modelled
decision only at the fixed ceiling 3, the default MAX_RETRIES value; the
entry point builds its initial state from the question alone and carries
no ceiling override. -/
theorem C9_amended (s : AgentState) (q : String) :
    should_retry s = specShouldRetry 3 s ∧
    MAX_RETRIES none = 3 ∧
    (initialState q).question = q ∧
    (initialState q).iteration = 0 :=
  ⟨rfl, rfl, rfl, rfl⟩

end Text2SQL
